import Mathlib

/-!
Verification development for the open-asset-store repository.

The repository contains two parallel Neo4j persistence variants:
  * `src/asset_store/...` (the variant with an event log, a freshness merge
    and an `enforce_taxonomy` flag), embedded below in namespace `AssetStore`;
  * `src/asset_db/...` (the older variant without events), embedded below in
    namespace `AssetDb`.

Modelling conventions, used consistently for both variants:
  * Timestamps (`datetime`) are `Nat`; `datetime.now()` becomes an explicit
    `now : Nat` argument, and generated identifiers (`uuid4`, Neo4j element
    ids) become explicit `String` arguments.
  * Python exceptions become `Except Err`, with one `Err` constructor per
    distinct raise site / message.  In every modelled code path the store is
    only written in branches that return normally, so an `.error` result
    always leaves the store exactly as it was before the call; operations
    therefore have type `... -> Except Err (result × state)`.
  * The polymorphic payload types (`Asset`, `Relation`, `Property`) live in
    the external asset_model / oam package.  They are modelled as records
    carrying their discriminator tag together with the association list of
    declared field values produced by their `to_dict` projection; the
    external `is_fresher_than` / `override_with` / `equals` operations are
    passed in as explicit function-valued arguments (`RelationOps`,
    `PropertyOps`), since the claims quantify over their behaviour.
  * The graph codec round-trip (flatten `to_dict` on write, `from_dict` on
    read) is modelled as the identity on the typed payload: a stored record
    keeps its payload as a `Relation` / `Property` value next to the explicit
    metadata properties (`edge_id`, `tag_id`, owner ids, timestamps,
    discriminator) that the queries in the source manipulate directly.
-/

/-- External payload: an Asset variant, as the pair of its `asset_type`
discriminator and its declared field values. -/
structure Asset where
  asset_type : String
  fields : List (String × String)
deriving DecidableEq, Repr

/-- External payload: a Relation variant (`label`, `relation_type`
discriminator, declared field values). -/
structure Relation where
  label : String
  relation_type : String
  fields : List (String × String)
deriving DecidableEq, Repr

/-- External payload: a Property variant (`property_type` discriminator,
declared `name`, declared field values). -/
structure Property where
  property_type : String
  name : String
  fields : List (String × String)
deriving DecidableEq, Repr

/-- The external asset_model operations on Relation that the repositories
consume: `equals`, `is_fresher_than` and `override_with`. -/
structure RelationOps where
  requals : Relation → Relation → Bool
  rfresher : Relation → Relation → Bool
  roverride : Relation → Relation → Relation

/-- The external asset_model operations on Property that the repositories
consume: `is_fresher_than` and `override_with`. -/
structure PropertyOps where
  pfresher : Property → Property → Bool
  poverride : Property → Property → Property

/-- The external taxonomy validator `valid_relationship`, a pure predicate on
(from asset type, relation label, relation type, to asset type). -/
def RelValidator : Type := String → String → String → String → Bool

/-- Errors: one constructor per distinct raise site / message in the
modelled source files. -/
inductive Err
  /-- asset_store edge.py: the string built from the rejected triple,
  ending in "is not valid in the taxonomy". -/
  | taxonomyViolation (fromType lbl toType : String)
  /-- "no records returned from the query" (a `Result.single` call produced
  no record). -/
  | noRecords
  /-- "no edge was found" (`find_edge_by_id`, both variants). -/
  | noEdgeWasFound
  /-- asset_db "no edge found" (`incoming_edges` / `outgoing_edges` with an
  empty result). -/
  | noEdgeFound
  /-- "no entity tags found" (a content or owner tag query with zero
  records, in the paths that raise instead of returning empty). -/
  | noEntityTagsFound
  /-- "no entity tag found" (zero tags survive the name filter). -/
  | noEntityTagFound
  /-- asset_db "no edge tags found". -/
  | noEdgeTagsFound
  /-- asset_db "no edge tag found". -/
  | noEdgeTagFound
  /-- asset_db "the property type does not match the existing tag". -/
  | typeMismatch
  /-- "malformed entity tag" (a tag submitted without a property). -/
  | malformedTag
  /-- asset_db query.py "asset type not supported". -/
  | assetTypeNotSupported
  /-- "Unable to extract 'created_at'" and the sibling messages of the
  node/relationship decoders when a required temporal field is absent. -/
  | unableToExtract (field : String)
  /-- Python AttributeError: `find_entity_tag_by_id` / `find_edge_tag_by_id`
  call `db.execute_query` without a result transformer, so the value they
  bind is the driver's eager (records, summary, keys) named tuple, and the
  subsequent `.get` attribute access on it raises AttributeError before any
  branch of the function body can be reached. -/
  | attributeErrorEagerResultGet
  /-- Python AttributeError: asset_db create_edge rejects a triple with
  `raise Exception(template).format(...)`; the `.format` call is evaluated
  on the Exception object, which has no such attribute, so an AttributeError
  is raised in place of the intended taxonomy message. -/
  | attributeErrorExceptionFormat
  /-- Neo4j client error: asset_store delete_edge builds its delete query as
  a plain (non-formatted) string literal containing doubled braces, so the
  literal text of the pattern is not valid Cypher and the driver raises. -/
  | cypherSyntaxError
  /-- Spec-modelled entity lookup: "entity not found" for an id-based
  entity search. -/
  | entityNotFound
deriving DecidableEq, Repr

/-- Python truthiness of an optional string id: present and non-empty
(the `tag.id is not None and tag.id != ""` checks). -/
def idPresent : Option String → Bool
  | none => false
  | some s => !(s == "")

/-- ASCII upper-casing of a character (Python `str.upper` restricted to the
ASCII labels the repository uses). -/
def chUp (c : Char) : Char :=
  if 97 ≤ c.toNat && c.toNat ≤ 122 then Char.ofNat (c.toNat - 32) else c

/-- ASCII upper-casing of a string (Python `str.upper` on ASCII labels). -/
def strUpper (s : String) : String := String.mk (s.data.map chUp)

/-- ASCII lower-casing of a character. -/
def chLow (c : Char) : Char :=
  if 65 ≤ c.toNat && c.toNat ≤ 90 then Char.ofNat (c.toNat + 32) else c

/-- ASCII lower-casing of a string (Python `str.casefold` on ASCII labels). -/
def strLower (s : String) : String := String.mk (s.data.map chLow)

/-- Python `str.casefold`-based label comparison, modelled as ASCII lower
casing (the labels in the repository are ASCII). -/
def caseEq (a b : String) : Bool := strLower a == strLower b

/-- The optional `since` filter: `updated_at >= since`; an absent stored
timestamp compares as null and excludes the row. -/
def sinceOk (since : Option Nat) (updated : Option Nat) : Bool :=
  match since, updated with
  | none, _ => true
  | some _, none => false
  | some s, some u => s ≤ u

/-- Replace the first list element satisfying `p` by `f` of it; `none` when
no element matches (the semantics of a MATCH ... SET with `Result.single`). -/
def replaceFirst (p : α → Bool) (f : α → α) : List α → Option (List α)
  | [] => none
  | x :: xs =>
    if p x then some (f x :: xs)
    else match replaceFirst p f xs with
      | none => none
      | some ys => some (x :: ys)

-- Decidable equality for Except results, so that concrete runs of the
-- modelled operations can be checked by decide.
deriving instance DecidableEq for Except

namespace AssetStore

/-- Modelled from the spec: the asset_store Entity type
(src/asset_store/types/entity.py is not in the provided sources).  A stored,
identity-bearing wrapper around an Asset with generated identifier and
created_at / updated_at metadata. -/
structure Entity where
  id : String
  created_at : Nat
  updated_at : Nat
  asset : Asset
deriving DecidableEq, Repr

/-- Modelled from the spec: the asset_store Edge type
(src/asset_store/types/edge.py is not in the provided sources; its field set
and the `edge_id, created_at, updated_at, etype, flattened relation` persisted
shape follow spec section 6 and the accesses in
src/asset_store/repository/neo4j/edge.py).  The id is optional: submissions
constructed as `Edge(relation=..., from_entity=..., to_entity=...)` carry no
id. -/
structure Edge where
  id : Option String
  created_at : Nat
  updated_at : Nat
  relation : Relation
  from_entity : Entity
  to_entity : Entity
deriving DecidableEq, Repr

/-- The `label` property of an Edge: the relation label upper-cased, used as
the Neo4j relationship type. -/
def Edge.lbl (e : Edge) : String := strUpper e.relation.label

/-- Modelled from the spec: the asset_store EntityTag type. -/
structure EntityTag where
  id : Option String
  created_at : Nat
  updated_at : Nat
  entity : Entity
  prop : Property
deriving DecidableEq, Repr

/-- Modelled from the spec: the asset_store EdgeTag type. -/
structure EdgeTag where
  id : Option String
  created_at : Nat
  updated_at : Nat
  edge : Edge
  prop : Property
deriving DecidableEq, Repr

/-- Modelled from the spec: the domain events of asset_store/events/events.py
(not in the provided sources; the constructors and their payloads follow the
emission sites in the repository code and spec section 3). -/
inductive Event
  | EntityInserted (entity : Entity)
  | EntityUntouched (entity : Entity)
  | EntityUpdated (old_entity entity : Entity)
  | EntityDeleted (old_entity : Entity)
  | EdgeInserted (edge : Edge)
  | EdgeUpdated (old_edge edge : Edge)
  | EdgeUntouched (edge : Edge)
  | EdgeDeleted (old_edge : Edge)
  | EntityTagInserted (tag : EntityTag)
  | EntityTagUpdated (old_tag tag : EntityTag)
  | EntityTagUntouched (tag : EntityTag)
  | EntityTagDeleted (old_tag : EntityTag)
  | EdgeTagInserted (tag : EdgeTag)
  | EdgeTagUpdated (old_tag tag : EdgeTag)
  | EdgeTagUntouched (tag : EdgeTag)
  | EdgeTagDeleted (old_tag : EdgeTag)
deriving DecidableEq, Repr

/-- A stored Neo4j relationship as asset_store persists it: the relationship
type (upper-cased label), the entity ids of its endpoints, and the properties
of `Edge.to_dict` (edge_id, created_at, updated_at, typed relation payload). -/
structure SEdge where
  edge_id : String
  rtype : String
  fromId : String
  toId : String
  created_at : Nat
  updated_at : Nat
  relation : Relation
deriving DecidableEq, Repr

/-- A stored tag node (entity or edge tag): `tag_id`, the owning record's id
(`entity_id` / `edge_id` property), timestamps (optional: the asset_db
explicit-id update path can persist absent timestamps), and the typed
property payload (whose `property_type` is the node's extra graph label and
`ttype` property). -/
structure STag where
  tag_id : String
  ownerId : String
  created_at : Option Nat
  updated_at : Option Nat
  prop : Property
deriving DecidableEq, Repr

/-- The graph store contents visible to the modelled operations. -/
structure Store where
  entities : List Entity
  edges : List SEdge
  entityTags : List STag
  edgeTags : List STag
deriving DecidableEq, Repr

/-- The NeoRepository object state: the store behind the session, the
process-local events buffer, and the two constructor flags. -/
structure Repo where
  store : Store
  buffer : List Event
  enforceTaxonomy : Bool
  emitEvents : Bool
deriving DecidableEq, Repr

/-- NeoRepository.__init__ default for enforce_taxonomy. -/
def defaultEnforceTaxonomy : Bool := true

/-- NeoRepository.__init__ default for emit_events. -/
def defaultEmitEvents : Bool := false

/-- NeoRepository.__init__ over a given store: empty events buffer and the
two flags (their Python defaults are `defaultEnforceTaxonomy` and
`defaultEmitEvents`). -/
def initRepo (store : Store) (enforceTaxonomy emitEvents : Bool) : Repo :=
  { store := store, buffer := [], enforceTaxonomy := enforceTaxonomy,
    emitEvents := emitEvents }

/-- NeoRepository._emit: append to the buffer only when emit_events is set. -/
def emitEv (repo : Repo) (e : Event) : Repo :=
  if repo.emitEvents then { repo with buffer := repo.buffer ++ [e] } else repo

/-- NeoRepository.flush_events: return the buffer and clear it. -/
def flush_events (repo : Repo) : List Event × Repo :=
  (repo.buffer, { repo with buffer := [] })

/-- Modelled from the spec: asset_store find_entity_by_id
(src/asset_store/repository/neo4j/entity.py is not in the provided sources);
an id-based search that fails with NotFound when the id is absent. -/
def find_entity_by_id (st : Store) (id : String) : Except Err Entity :=
  match st.entities.find? (fun e => e.id == id) with
  | none => .error .entityNotFound
  | some e => .ok e

/-- edge.py _relationship_to_edge, with the codec modelled as the identity on
the typed relation payload; the caller supplies the hydrated endpoints. -/
def relationshipToEdge (r : SEdge) (fromE toE : Entity) : Edge :=
  { id := some r.edge_id, created_at := r.created_at,
    updated_at := r.updated_at, relation := r.relation,
    from_entity := fromE, to_entity := toE }

/-- The label filter of incoming_edges / outgoing_edges: no labels means no
filtering, otherwise a casefolded match against the relationship type. -/
def labelOk (labels : List String) (rtype : String) : Bool :=
  labels.isEmpty || labels.any (fun l => caseEq l rtype)

/-- The record-processing loop of outgoing_edges: filter by label, hydrate
the to-entity by id (a failed hydration propagates), convert each
relationship record. -/
def outgoingGo (st : Store) (entity : Entity) (labels : List String) :
    List SEdge → Except Err (List Edge)
  | [] => .ok []
  | r :: rest =>
    if labelOk labels r.rtype then
      match find_entity_by_id st r.toId with
      | .error e => .error e
      | .ok toE =>
        match outgoingGo st entity labels rest with
        | .error e => .error e
        | .ok es => .ok (relationshipToEdge r entity toE :: es)
    else outgoingGo st entity labels rest

/-- edge.py outgoing_edges: relationships whose from-endpoint is the given
entity, optionally filtered by `since` and by casefolded labels; an empty
result is returned as the empty list. -/
def outgoing_edges (st : Store) (entity : Entity) (since : Option Nat)
    (labels : List String) : Except Err (List Edge) :=
  outgoingGo st entity labels
    (st.edges.filter (fun r =>
      r.fromId == entity.id && sinceOk since (some r.updated_at)))

/-- edge.py find_edge_by_id: the single relationship carrying the given
`edge_id` property, hydrated at both endpoints; zero matches raise
"no edge was found". -/
def find_edge_by_id (st : Store) (id : String) : Except Err Edge :=
  match st.edges.find? (fun r => r.edge_id == id) with
  | none => .error .noEdgeWasFound
  | some r =>
    match find_entity_by_id st r.fromId with
    | .error e => .error e
    | .ok fromE =>
      match find_entity_by_id st r.toId with
      | .error e => .error e
      | .ok toE => .ok (relationshipToEdge r fromE toE)

/-- edge.py _find_existing_edge: an explicit id is looked up directly
(errors propagate); otherwise the outgoing edges of the from-entity are
scanned for the first one with the same to-entity id and a content-equal
relation, any lookup error being swallowed into "no duplicate". -/
def findExistingEdge (rops : RelationOps) (repo : Repo) (edge : Edge) :
    Except Err (Option Edge) :=
  if idPresent edge.id then
    match find_edge_by_id repo.store (edge.id.getD "") with
    | .error e => .error e
    | .ok fe => .ok (some fe)
  else
    match outgoing_edges repo.store edge.from_entity none [] with
    | .error _ => .ok none
    | .ok outs =>
      .ok (outs.find? (fun out =>
        edge.to_entity.id == out.to_entity.id
          && rops.requals edge.relation out.relation))

/-- The CREATE query of the insert branch of create_edge: both endpoint
entity nodes must match for the CREATE to produce a record; on success the
new relationship is appended with the submitted payload and the relation
label (upper-cased) as its type. -/
def insertEdgeStore (st : Store) (newEdge : Edge) (newId : String) :
    Option Store :=
  if st.entities.any (fun e => e.id == newEdge.from_entity.id)
      && st.entities.any (fun e => e.id == newEdge.to_entity.id) then
    some { st with edges := st.edges ++
      [{ edge_id := newId, rtype := newEdge.lbl,
         fromId := newEdge.from_entity.id, toId := newEdge.to_entity.id,
         created_at := newEdge.created_at, updated_at := newEdge.updated_at,
         relation := newEdge.relation }] }
  else none

/-- The MATCH ... SET query of the update branch of create_edge: both
endpoint entity nodes must match, and the first relationship of the merged
edge's (upper-cased) label between them has its properties replaced by the
merged edge's `to_dict`; the relationship type itself is not changed by SET. -/
def updateEdgeStore (st : Store) (newEdge : Edge) : Option Store :=
  if st.entities.any (fun e => e.id == newEdge.from_entity.id)
      && st.entities.any (fun e => e.id == newEdge.to_entity.id) then
    match replaceFirst
        (fun r => r.fromId == newEdge.from_entity.id
          && r.toId == newEdge.to_entity.id && r.rtype == newEdge.lbl)
        (fun r => { r with
          edge_id := newEdge.id.getD "",
          created_at := newEdge.created_at, updated_at := newEdge.updated_at,
          relation := newEdge.relation })
        st.edges with
    | none => none
    | some es => some { st with edges := es }
  else none

/-- edge.py create_edge: the taxonomy gate (conditional on the
enforce_taxonomy flag), then existence lookup, then insert / freshness
merge / untouched no-op with the corresponding event. -/
def create_edge (vr : RelValidator) (rops : RelationOps) (repo : Repo)
    (edge : Edge) (now : Nat) (newId : String) :
    Except Err (Edge × Repo) :=
  if repo.enforceTaxonomy
      && !(vr edge.from_entity.asset.asset_type edge.relation.label
            edge.relation.relation_type edge.to_entity.asset.asset_type) then
    .error (.taxonomyViolation edge.from_entity.asset.asset_type
      edge.relation.label edge.to_entity.asset.asset_type)
  else
    match findExistingEdge rops repo edge with
    | .error e => .error e
    | .ok none =>
      let newEdge : Edge :=
        { id := some newId, created_at := now, updated_at := now,
          from_entity := edge.from_entity, to_entity := edge.to_entity,
          relation := edge.relation }
      match insertEdgeStore repo.store newEdge newId with
      | none => .error .noRecords
      | some st' =>
        .ok (newEdge, emitEv { repo with store := st' }
          (.EdgeInserted newEdge))
    | .ok (some old) =>
      if rops.rfresher edge.relation old.relation then
        let newEdge : Edge :=
          { id := old.id, from_entity := old.from_entity,
            to_entity := old.to_entity,
            relation := rops.roverride old.relation edge.relation,
            created_at := old.created_at, updated_at := now }
        match updateEdgeStore repo.store newEdge with
        | none => .error .noRecords
        | some st' =>
          .ok (newEdge, emitEv { repo with store := st' }
            (.EdgeUpdated old newEdge))
      else
        .ok (old, emitEv repo (.EdgeUntouched old))

/-- edge.py create_relation: create_edge on an Edge built from the relation
and endpoints, with no id and zero timestamps (the dataclass defaults of the
missing asset_store Edge, modelled; the create paths overwrite both
timestamps before persisting anything). -/
def create_relation (vr : RelValidator) (rops : RelationOps) (repo : Repo)
    (relation : Relation) (from_entity to_entity : Entity) (now : Nat)
    (newId : String) : Except Err (Edge × Repo) :=
  create_edge vr rops repo
    { id := none, created_at := 0, updated_at := 0, relation := relation,
      from_entity := from_entity, to_entity := to_entity } now newId

/-- edge.py delete_edge: the edge is first looked up by id; the delete query
itself is the plain string literal containing the doubled-brace text, which
is not valid Cypher, so the driver raises on every call and neither the
deletion nor the EdgeDeleted emission is ever reached. -/
def delete_edge (repo : Repo) (id : String) : Except Err (Edge × Repo) :=
  match find_edge_by_id repo.store id with
  | .error e => .error e
  | .ok _ => .error .cypherSyntaxError

/-- entity_tag.py _node_to_entity_tag: hydrate the owning entity by id,
require both timestamps, and rebuild the typed property (codec modelled as
the identity). -/
def nodeToEntityTag (st : Store) (t : STag) : Except Err EntityTag :=
  match find_entity_by_id st t.ownerId with
  | .error e => .error e
  | .ok owner =>
    match t.created_at with
    | none => .error (.unableToExtract "created_at")
    | some c =>
      match t.updated_at with
      | none => .error (.unableToExtract "created_at")
      | some u =>
        .ok { id := some t.tag_id, entity := owner, created_at := c,
              updated_at := u, prop := t.prop }

/-- entity_tag.py find_entity_tags_by_content: nodes labelled
EntityTag:{property_type} whose declared property values all equal the
submitted property's `to_dict` (content equality), with the optional
`since` filter; zero matches return the empty list; a failed hydration
propagates. -/
def find_entity_tags_by_content (st : Store) (prop : Property)
    (since : Option Nat) : Except Err (List EntityTag) :=
  let ms := st.entityTags.filter (fun t =>
    t.prop == prop && sinceOk since t.updated_at)
  ms.foldr (fun t acc =>
    match nodeToEntityTag st t with
    | .error e => .error e
    | .ok tag =>
      match acc with
      | .error e => .error e
      | .ok tags => .ok (tag :: tags)) (.ok [])

/-- entity_tag.py find_entity_tag_by_id: the source binds the result of
`execute_query` without a result transformer (the driver's eager
records/summary/keys named tuple) and immediately calls `.get` on it, which
raises AttributeError on every input before any branch of the function can
return. -/
def find_entity_tag_by_id (_st : Store) (_id : String) :
    Except Err EntityTag :=
  .error .attributeErrorEagerResultGet

/-- entity_tag.py _find_existing_entity_tag: an explicit id is looked up
directly (errors propagate); otherwise the first content-equal tag anywhere
in storage is taken, with no filtering on the owning entity. -/
def findExistingEntityTag (repo : Repo) (tag : EntityTag) :
    Except Err (Option EntityTag) :=
  if idPresent tag.id then
    match find_entity_tag_by_id repo.store (tag.id.getD "") with
    | .error e => .error e
    | .ok t => .ok (some t)
  else
    match find_entity_tags_by_content repo.store tag.prop none with
    | .error e => .error e
    | .ok findings => .ok findings.head?

/-- entity_tag.py create_entity_tag: existence lookup, then insert /
freshness merge / untouched no-op with the corresponding event.  The update
branch of the source has no none-check on the SET query's record, so it
emits and returns even when no stored node matched the tag id (the store is
then left unchanged). -/
def create_entity_tag (pops : PropertyOps) (repo : Repo) (tag : EntityTag)
    (now : Nat) (newId : String) : Except Err (EntityTag × Repo) :=
  match findExistingEntityTag repo tag with
  | .error e => .error e
  | .ok none =>
    let newTag : EntityTag :=
      { id := some newId, created_at := now, updated_at := now,
        entity := tag.entity, prop := tag.prop }
    let st' := { repo.store with entityTags := repo.store.entityTags ++
      [{ tag_id := newId, ownerId := tag.entity.id, created_at := some now,
         updated_at := some now, prop := tag.prop }] }
    .ok (newTag, emitEv { repo with store := st' }
      (.EntityTagInserted newTag))
  | .ok (some old) =>
    if pops.pfresher tag.prop old.prop then
      let newTag : EntityTag :=
        { id := old.id, created_at := old.created_at, updated_at := now,
          entity := old.entity, prop := pops.poverride old.prop tag.prop }
      let st' :=
        match replaceFirst (fun t => t.tag_id == old.id.getD "")
            (fun _ => {
              tag_id := newTag.id.getD "",
              ownerId := newTag.entity.id,
              created_at := some newTag.created_at,
              updated_at := some newTag.updated_at, prop := newTag.prop })
            repo.store.entityTags with
        | none => repo.store
        | some ts => { repo.store with entityTags := ts }
      .ok (newTag, emitEv { repo with store := st' }
        (.EntityTagUpdated old newTag))
    else
      .ok (old, emitEv repo (.EntityTagUntouched old))

/-- entity_tag.py create_entity_property: create_entity_tag on a tag built
from the entity and property, with no id and zero timestamps (dataclass
defaults of the missing asset_store EntityTag, modelled; the create paths
overwrite both timestamps before persisting anything). -/
def create_entity_property (pops : PropertyOps) (repo : Repo)
    (entity : Entity) (prop : Property) (now : Nat) (newId : String) :
    Except Err (EntityTag × Repo) :=
  create_entity_tag pops repo
    { id := none, created_at := 0, updated_at := 0, entity := entity,
      prop := prop } now newId

/-- entity_tag.py delete_entity_tag: the tag is first looked up by id (a
lookup that raises AttributeError unconditionally, see find_entity_tag_by_id,
so in the source as written the remainder of this function is unreachable);
the remainder deletes the node and emits EntityTagDeleted with the
pre-deletion record. -/
def delete_entity_tag (repo : Repo) (id : String) :
    Except Err (EntityTag × Repo) :=
  match find_entity_tag_by_id repo.store id with
  | .error e => .error e
  | .ok tag =>
    let st' := { repo.store with
      entityTags := repo.store.entityTags.filter (fun t => !(t.tag_id == id)) }
    .ok (tag, emitEv { repo with store := st' } (.EntityTagDeleted tag))

/-- edge_tag.py _node_to_edge_tag: hydrate the owning edge by id (which in
turn hydrates its endpoints), require both timestamps, rebuild the typed
property. -/
def nodeToEdgeTag (st : Store) (t : STag) : Except Err EdgeTag :=
  match find_edge_by_id st t.ownerId with
  | .error e => .error e
  | .ok edge =>
    match t.created_at with
    | none => .error (.unableToExtract "created_at")
    | some c =>
      match t.updated_at with
      | none => .error (.unableToExtract "updated_at")
      | some u =>
        .ok { id := some t.tag_id, edge := edge, created_at := c,
              updated_at := u, prop := t.prop }

/-- edge_tag.py find_edge_tags_by_content: nodes labelled
EdgeTag:{property_type} with content-equal declared property values,
optionally filtered by `since`; zero matches return the empty list. -/
def find_edge_tags_by_content (st : Store) (prop : Property)
    (since : Option Nat) : Except Err (List EdgeTag) :=
  let ms := st.edgeTags.filter (fun t =>
    t.prop == prop && sinceOk since t.updated_at)
  ms.foldr (fun t acc =>
    match nodeToEdgeTag st t with
    | .error e => .error e
    | .ok tag =>
      match acc with
      | .error e => .error e
      | .ok tags => .ok (tag :: tags)) (.ok [])

/-- edge_tag.py find_edge_tag_by_id: same slip as find_entity_tag_by_id; the
`.get` attribute access on the driver's eager result tuple raises
AttributeError on every input. -/
def find_edge_tag_by_id (_st : Store) (_id : String) : Except Err EdgeTag :=
  .error .attributeErrorEagerResultGet

/-- edge_tag.py _find_existing_edge_tag: an explicit id is looked up
directly (errors propagate); otherwise the first content-equal tag anywhere
in storage is taken, with no filtering on the owning edge. -/
def findExistingEdgeTag (repo : Repo) (tag : EdgeTag) :
    Except Err (Option EdgeTag) :=
  if idPresent tag.id then
    match find_edge_tag_by_id repo.store (tag.id.getD "") with
    | .error e => .error e
    | .ok t => .ok (some t)
  else
    match find_edge_tags_by_content repo.store tag.prop none with
    | .error e => .error e
    | .ok findings => .ok findings.head?

/-- edge_tag.py create_edge_tag: existence lookup, then insert / freshness
merge / untouched no-op with the corresponding event; unlike the entity-tag
sibling, the update branch checks the SET query's record and raises
"no records returned from the query" when no stored node matched. -/
def create_edge_tag (pops : PropertyOps) (repo : Repo) (tag : EdgeTag)
    (now : Nat) (newId : String) : Except Err (EdgeTag × Repo) :=
  match findExistingEdgeTag repo tag with
  | .error e => .error e
  | .ok none =>
    let newTag : EdgeTag :=
      { id := some newId, created_at := now, updated_at := now,
        edge := tag.edge, prop := tag.prop }
    let st' := { repo.store with edgeTags := repo.store.edgeTags ++
      [{ tag_id := newId, ownerId := tag.edge.id.getD "",
         created_at := some now, updated_at := some now,
         prop := tag.prop }] }
    .ok (newTag, emitEv { repo with store := st' } (.EdgeTagInserted newTag))
  | .ok (some old) =>
    if pops.pfresher tag.prop old.prop then
      let newTag : EdgeTag :=
        { id := old.id, created_at := old.created_at, updated_at := now,
          edge := old.edge, prop := pops.poverride old.prop tag.prop }
      match replaceFirst (fun t => t.tag_id == old.id.getD "")
          (fun _ => {
            tag_id := newTag.id.getD "",
            ownerId := newTag.edge.id.getD "",
            created_at := some newTag.created_at,
            updated_at := some newTag.updated_at, prop := newTag.prop })
          repo.store.edgeTags with
      | none => .error .noRecords
      | some ts =>
        .ok (newTag, emitEv { repo with store :=
          { repo.store with edgeTags := ts } } (.EdgeTagUpdated old newTag))
    else
      .ok (old, emitEv repo (.EdgeTagUntouched old))

/-- edge_tag.py create_edge_property: create_edge_tag on a tag built from
the edge and property, with no id and zero timestamps (dataclass defaults of
the missing asset_store EdgeTag, modelled). -/
def create_edge_property (pops : PropertyOps) (repo : Repo) (edge : Edge)
    (prop : Property) (now : Nat) (newId : String) :
    Except Err (EdgeTag × Repo) :=
  create_edge_tag pops repo
    { id := none, created_at := 0, updated_at := 0, edge := edge,
      prop := prop } now newId

/-- edge_tag.py delete_edge_tag: the tag is first looked up by id (a lookup
that raises AttributeError unconditionally, see find_edge_tag_by_id, so in
the source as written the remainder is unreachable); the remainder deletes
the node and emits EdgeTagDeleted with the pre-deletion record. -/
def delete_edge_tag (repo : Repo) (id : String) :
    Except Err (EdgeTag × Repo) :=
  match find_edge_tag_by_id repo.store id with
  | .error e => .error e
  | .ok tag =>
    let st' := { repo.store with
      edgeTags := repo.store.edgeTags.filter (fun t => !(t.tag_id == id)) }
    .ok (tag, emitEv { repo with store := st' } (.EdgeTagDeleted tag))

/-- entity_tag.py find_entity_tags: tags owned by the given entity (by the
`entity_id` node property), optionally filtered by `since` and by exact
property-name membership; zero records raise "no entity tags found" and zero
survivors of the name filter raise "no entity tag found" (unlike the
edge-tag sibling, which returns the empty list). -/
def find_entity_tags (st : Store) (entity : Entity) (since : Option Nat)
    (names : List String) : Except Err (List EntityTag) :=
  let recs := st.entityTags.filter (fun t =>
    t.ownerId == entity.id && sinceOk since t.updated_at)
  if recs.isEmpty then .error .noEntityTagsFound
  else
    match recs.foldr (fun t acc =>
      match nodeToEntityTag st t with
      | .error e => .error e
      | .ok tag =>
        match acc with
        | .error e => .error e
        | .ok tags =>
          if names.isEmpty || names.contains tag.prop.name then
            .ok (tag :: tags)
          else .ok tags)
      ((.ok []) : Except Err (List EntityTag)) with
    | .error e => .error e
    | .ok tags => if tags.isEmpty then .error .noEntityTagFound else .ok tags

/-- edge_tag.py find_edge_tags: tags owned by the given edge, optionally
filtered by `since` and by exact property-name membership; zero matches
return the empty list. -/
def find_edge_tags (st : Store) (edge : Edge) (since : Option Nat)
    (names : List String) : Except Err (List EdgeTag) :=
  let recs := st.edgeTags.filter (fun t =>
    t.ownerId == edge.id.getD "" && sinceOk since t.updated_at)
  recs.foldr (fun t acc =>
    match nodeToEdgeTag st t with
    | .error e => .error e
    | .ok tag =>
      match acc with
      | .error e => .error e
      | .ok tags =>
        if names.isEmpty || names.contains tag.prop.name then
          .ok (tag :: tags)
        else .ok tags) (.ok [])

end AssetStore

namespace AssetDb

/-- The asset_db Entity (src/asset_db/types/entity.py), reduced to the two
fields the asset_db repository reads: the identifier and the wrapped Asset.
The hydration stubs of extract.py construct entities from an id alone; they
are modelled with `stubEntity`, whose placeholder asset is never read. -/
structure Entity where
  id : String
  asset : Asset
deriving DecidableEq, Repr

/-- extract.py hydration stub `Entity(id=...)`: only the id is populated;
the placeholder asset is never read on the modelled paths. -/
def stubEntity (id : String) : Entity := { id := id, asset := ⟨"", []⟩ }

/-- The asset_db Edge (src/asset_db/types/edge.py).  Timestamps and the id
are optional: a caller-submitted edge may omit them (create_edge fills the
timestamps), and the id of a stored edge is the Neo4j element id. -/
structure Edge where
  id : Option String
  created_at : Option Nat
  updated_at : Option Nat
  relation : Relation
  from_entity : Entity
  to_entity : Entity
deriving DecidableEq, Repr

/-- Edge.label: the relation label upper-cased. -/
def Edge.lbl (e : Edge) : String := strUpper e.relation.label

/-- The asset_db EntityTag (src/asset_db/types/entity_tag.py), with the
optional id and timestamps that create_entity_tag checks for. -/
structure EntityTag where
  id : Option String
  created_at : Option Nat
  updated_at : Option Nat
  entity : Entity
  prop : Property
deriving DecidableEq, Repr

/-- A stored asset_db relationship: keyed by the driver-assigned element id;
its properties are `Edge.to_dict` (created_at, updated_at, etype and the
flattened relation — no edge_id property in this variant). -/
structure SEdge where
  elementId : String
  rtype : String
  fromId : String
  toId : String
  created_at : Nat
  updated_at : Nat
  relation : Relation
deriving DecidableEq, Repr

/-- The asset_db graph store: entity nodes (only their `entity_id` is
consulted by the modelled paths), relationships and tag nodes. -/
structure Store where
  entityIds : List String
  edges : List SEdge
  entityTags : List AssetStore.STag
deriving DecidableEq, Repr

/-- extract.py relationship_to_edge: the element id becomes the edge id,
both timestamps are required (present by construction on every stored
relationship of this model), the typed relation is rebuilt from the
discriminator; the endpoints are assigned by the caller afterwards and start
as empty stubs. -/
def relationship_to_edge (r : SEdge) : Edge :=
  { id := some r.elementId, created_at := some r.created_at,
    updated_at := some r.updated_at, relation := r.relation,
    from_entity := stubEntity "", to_entity := stubEntity "" }

/-- neo_repository.py outgoing_edges (asset_db): relationships whose
from-endpoint is the given entity, with the optional `since` and casefolded
label filters, from-entity set to the argument and to-entity to an id stub;
an empty result raises "no edge found". -/
def outgoing_edges (st : Store) (entity : Entity) (since : Option Nat)
    (labels : List String) : Except Err (List Edge) :=
  let recs := st.edges.filter (fun r =>
    r.fromId == entity.id && sinceOk since (some r.updated_at))
  let results := (recs.filter (fun r => AssetStore.labelOk labels r.rtype)).map
    (fun r => { relationship_to_edge r with
      from_entity := entity, to_entity := stubEntity r.toId })
  if results.isEmpty then .error .noEdgeFound else .ok results

/-- neo_repository.py find_edge_by_id (asset_db): the single relationship
with the given element id, endpoints set to id stubs; zero matches raise
"no edge was found". -/
def find_edge_by_id (st : Store) (id : String) : Except Err Edge :=
  match st.edges.find? (fun r => r.elementId == id) with
  | none => .error .noEdgeWasFound
  | some r =>
    .ok { relationship_to_edge r with
      from_entity := stubEntity r.fromId, to_entity := stubEntity r.toId }

/-- neo_repository.py edge_seen: set the stored relationship's updated_at to
the given time, matching by element id. -/
def edge_seen (st : Store) (edgeId : String) (updated : Nat) : Store :=
  { st with edges := st.edges.map (fun r =>
      if r.elementId == edgeId then { r with updated_at := updated } else r) }

/-- neo_repository.py get_duplicate_edge: scan the outgoing edges of the
from-entity for the first one with the same to-entity id and an equal
relation (dataclass equality); on a hit, bump its updated_at via edge_seen
and refetch it; every exception in the scan is swallowed into "no
duplicate", but a bump already performed persists. -/
def get_duplicate_edge (st : Store) (edge : Edge) (updated : Nat) :
    Option Edge × Store :=
  match outgoing_edges st edge.from_entity none [] with
  | .error _ => (none, st)
  | .ok outs =>
    match outs.find? (fun out =>
        edge.to_entity.id == out.to_entity.id
          && edge.relation == out.relation) with
    | none => (none, st)
    | some out =>
      let st' := edge_seen st (out.id.getD "") updated
      match find_edge_by_id st' (out.id.getD "") with
      | .error _ => (none, st')
      | .ok dup => (some dup, st')

/-- neo_repository.py create_edge (asset_db): the taxonomy gate is not
conditional on any flag, but its raise statement calls `.format` on the
Exception object, so a rejected triple fails with an AttributeError in place
of the taxonomy message; then the missing timestamps are filled, the
duplicate path returns the bumped-and-refetched duplicate, and the insert
path creates the relationship (both endpoint nodes must match) and returns
it re-read through relationship_to_edge with the caller's endpoints. -/
def create_edge (vr : RelValidator) (st : Store) (edge : Edge) (now : Nat)
    (newEid : String) : Except Err (Edge × Store) :=
  if !(vr edge.from_entity.asset.asset_type edge.relation.label
        edge.relation.relation_type edge.to_entity.asset.asset_type) then
    .error .attributeErrorExceptionFormat
  else
    let upd := edge.updated_at.getD now
    match get_duplicate_edge st edge upd with
    | (some dup, st') => .ok (dup, st')
    | (none, st') =>
      let created := edge.created_at.getD now
      if st'.entityIds.contains edge.from_entity.id
          && st'.entityIds.contains edge.to_entity.id then
        let rec_ : SEdge :=
          { elementId := newEid, rtype := edge.lbl,
            fromId := edge.from_entity.id, toId := edge.to_entity.id,
            created_at := created, updated_at := upd,
            relation := edge.relation }
        .ok ({ relationship_to_edge rec_ with
                from_entity := edge.from_entity,
                to_entity := edge.to_entity },
             { st' with edges := st'.edges ++ [rec_] })
      else .error .noRecords

/-- neo_repository.py delete_edge (asset_db): delete the relationship with
the given element id; nothing is looked up, returned or emitted. -/
def delete_edge (st : Store) (id : String) : Store :=
  { st with edges := st.edges.filter (fun r => !(r.elementId == id)) }

/-- query.py query_node_by_property_key_value: the per-variant pair of key
properties the content query matches on, dispatched on the property variant
(modelled on the `property_type` discriminator); an unknown variant raises
"asset type not supported".  The value of a key the property does not carry
is the empty string. -/
def query_node_by_property_key_value (prop : Property) :
    Except Err (List (String × String)) :=
  let fld := fun (k : String) => ((prop.fields.lookup k).getD "")
  if prop.property_type == "DNSRecordProperty" then
    .ok [("property_name", fld "property_name"), ("data", fld "data")]
  else if prop.property_type == "SimpleProperty" then
    .ok [("property_name", fld "property_name"),
         ("property_value", fld "property_value")]
  else if prop.property_type == "SourceProperty" then
    .ok [("name", fld "source"), ("confidence", fld "confidence")]
  else if prop.property_type == "VulnProperty" then
    .ok [("vuln_id", fld "id"), ("desc", fld "description")]
  else .error .assetTypeNotSupported

/-- Lookup of a stored tag node's property by key, as the content query
filters read them: the metadata keys first, then the flattened declared
property fields. -/
def tagNodeField (t : AssetStore.STag) (k : String) : Option String :=
  if k == "tag_id" then some t.tag_id
  else if k == "entity_id" then some t.ownerId
  else if k == "ttype" then some t.prop.property_type
  else t.prop.fields.lookup k

/-- extract.py node_to_entity_tag: both timestamps are required, the owner
is an id stub, the typed property is rebuilt from the discriminator. -/
def node_to_entity_tag (t : AssetStore.STag) : Except Err EntityTag :=
  match t.created_at with
  | none => .error (.unableToExtract "created_at")
  | some c =>
    match t.updated_at with
    | none => .error (.unableToExtract "created_at")
    | some u =>
      .ok { id := some t.tag_id, entity := stubEntity t.ownerId,
            created_at := some c, updated_at := some u, prop := t.prop }

/-- neo_repository.py find_entity_tags_by_content (asset_db): EntityTag
nodes matching the per-variant key/value pattern of query.py, with the
optional `since` filter; zero matches raise "no entity tags found" (this
variant raises instead of returning the empty list). -/
def find_entity_tags_by_content (st : Store) (prop : Property)
    (since : Option Nat) : Except Err (List EntityTag) :=
  match query_node_by_property_key_value prop with
  | .error e => .error e
  | .ok filters =>
    let recs := st.entityTags.filter (fun t =>
      filters.all (fun kv => tagNodeField t kv.1 == some kv.2)
        && sinceOk since t.updated_at)
    if recs.isEmpty then .error .noEntityTagsFound
    else
      match recs.foldr (fun t acc =>
        match node_to_entity_tag t with
        | .error e => .error e
        | .ok tag =>
          match acc with
          | .error e => .error e
          | .ok tags => .ok (tag :: tags))
        ((.ok []) : Except Err (List EntityTag)) with
      | .error e => .error e
      | .ok tags =>
        if tags.isEmpty then .error .noEntityTagFound else .ok tags

/-- neo_repository.py create_entity_tag (asset_db).  With an explicit id the
"existing" tag is constructed from the submission itself (no lookup), so the
subsequent property-type comparison checks the incoming property against
itself and can never fail; without an id the content search is filtered to
tags owned by the submitted entity, the hit is overwritten with the incoming
property and a bumped updated_at before the same vacuous comparison, and
every exception of the search is swallowed into "no existing tag".  The
update path SETs the node matched by tag id (raising "no records returned
from the query" when none matches) and re-reads it; the insert path fills
missing id/timestamps, persists and re-reads. -/
def create_entity_tag (st : Store) (entity : Entity) (tag : EntityTag)
    (now : Nat) (newId : String) : Except Err (EntityTag × Store) :=
  let existing? : Option EntityTag :=
    if idPresent tag.id then
      some { id := tag.id, created_at := tag.created_at,
             updated_at := some now, prop := tag.prop, entity := entity }
    else
      match find_entity_tags_by_content st tag.prop none with
      | .error _ => none
      | .ok ts =>
        match ts.find? (fun t => t.entity.id == entity.id) with
        | none => none
        | some t =>
          some { t with
            entity := entity, prop := tag.prop, updated_at := some now }
  match existing? with
  | some existing =>
    if !(tag.prop.property_type == existing.prop.property_type) then
      .error .typeMismatch
    else
      match replaceFirst (fun t => t.tag_id == existing.id.getD "")
          (fun _ => {
            tag_id := existing.id.getD "",
            ownerId := existing.entity.id,
            created_at := existing.created_at,
            updated_at := existing.updated_at, prop := existing.prop })
          st.entityTags with
      | none => .error .noRecords
      | some ts =>
        let node : AssetStore.STag :=
          { tag_id := existing.id.getD "", ownerId := existing.entity.id,
            created_at := existing.created_at,
            updated_at := existing.updated_at, prop := existing.prop }
        match node_to_entity_tag node with
        | .error e => .error e
        | .ok result => .ok (result, { st with entityTags := ts })
  | none =>
    let tid := if idPresent tag.id then tag.id.getD "" else newId
    let created := tag.created_at.getD now
    let updated := tag.updated_at.getD now
    let node : AssetStore.STag :=
      { tag_id := tid, ownerId := entity.id, created_at := some created,
        updated_at := some updated, prop := tag.prop }
    match node_to_entity_tag node with
    | .error e => .error e
    | .ok result =>
      .ok (result, { st with entityTags := st.entityTags ++ [node] })

end AssetDb

/-! Concrete fixtures, shared by the witnesses and counterexamples below.
They mirror the end-to-end scenario of the repository's tests: an FQDN
entity "a", an IPAddress entity "b", a dns_record relation between them and
a SourceProperty tag. -/

/-- Fixture: the FQDN asset of the tests. -/
def assetA : Asset :=
  { asset_type := "FQDN", fields := [("name", "test.example.com")] }

/-- Fixture: the IPAddress asset of the tests. -/
def assetB : Asset :=
  { asset_type := "IPAddress", fields := [("address", "192.168.1.1")] }

/-- Fixture: a BasicDNSRelation with rrtype 1. -/
def relR : Relation :=
  { label := "dns_record", relation_type := "BasicDNSRelation",
    fields := [("header_rrtype", "1")] }

/-- Fixture: a BasicDNSRelation with rrtype 2 (content differs from relR). -/
def relR2 : Relation :=
  { label := "dns_record", relation_type := "BasicDNSRelation",
    fields := [("header_rrtype", "2")] }

/-- Fixture: a SourceProperty. -/
def propP : Property :=
  { property_type := "SourceProperty", name := "myscript",
    fields := [("source", "myscript"), ("confidence", "100")] }

/-- Fixture: a SimpleProperty (a different property variant than propP). -/
def propQ : Property :=
  { property_type := "SimpleProperty", name := "simple",
    fields := [("property_name", "simple"), ("property_value", "v")] }

/-- Fixture: stored entity "a". -/
def entA : AssetStore.Entity :=
  { id := "a", created_at := 1, updated_at := 1, asset := assetA }

/-- Fixture: stored entity "b". -/
def entB : AssetStore.Entity :=
  { id := "b", created_at := 1, updated_at := 1, asset := assetB }

/-- Fixture: a stored dns_record relationship from "a" to "b". -/
def sedge1 : AssetStore.SEdge :=
  { edge_id := "e1", rtype := "DNS_RECORD", fromId := "a", toId := "b",
    created_at := 1, updated_at := 1, relation := relR }

/-- Fixture: a stored entity tag on "a" with property propP. -/
def stag1 : AssetStore.STag :=
  { tag_id := "t1", ownerId := "a", created_at := some 1,
    updated_at := some 1, prop := propP }

/-- Fixture: a stored edge tag on "e1" with property propP. -/
def gtag1 : AssetStore.STag :=
  { tag_id := "g1", ownerId := "e1", created_at := some 1,
    updated_at := some 1, prop := propP }

/-- Fixture: the asset_store store holding the above records. -/
def store1 : AssetStore.Store :=
  { entities := [entA, entB], edges := [sedge1], entityTags := [stag1],
    edgeTags := [gtag1] }

/-- Fixture: a repository over store1 with event emission enabled. -/
def repo1 : AssetStore.Repo :=
  { store := store1, buffer := [], enforceTaxonomy := true,
    emitEvents := true }

/-- Fixture: a repository over store1 with the constructor defaults. -/
def repo0 : AssetStore.Repo :=
  AssetStore.initRepo store1 AssetStore.defaultEnforceTaxonomy
    AssetStore.defaultEmitEvents

/-- Fixture: the stored tag of stag1 as hydrated by the content search. -/
def oldTagA : AssetStore.EntityTag :=
  { id := some "t1", created_at := 1, updated_at := 1, entity := entA,
    prop := propP }

/-- Fixture: the stored edge of sedge1 as hydrated by lookups. -/
def oldEdge1 : AssetStore.Edge :=
  { id := some "e1", created_at := 1, updated_at := 1, relation := relR,
    from_entity := entA, to_entity := entB }

/-- Fixture: the stored edge tag of gtag1 as hydrated by the content
search. -/
def oldEdgeTag1 : AssetStore.EdgeTag :=
  { id := some "g1", created_at := 1, updated_at := 1, edge := oldEdge1,
    prop := propP }

/-- Fixture: a tag submission for owner "b" without an explicit id, whose
property is content-equal to the stored tag owned by "a". -/
def tagB : AssetStore.EntityTag :=
  { id := none, created_at := 0, updated_at := 0, entity := entB,
    prop := propP }

/-- Fixture: a tag submission for the stored entity "a" without an explicit
id (content-equal to stag1). -/
def tagA : AssetStore.EntityTag :=
  { id := none, created_at := 0, updated_at := 0, entity := entA,
    prop := propP }

/-- Fixture: an edge-tag submission for the stored edge without an explicit
id (content-equal to gtag1). -/
def etagIn : AssetStore.EdgeTag :=
  { id := none, created_at := 0, updated_at := 0, edge := oldEdge1,
    prop := propP }

/-- Fixture: an edge submission from "a" to "b" without an explicit id,
carrying relR2. -/
def edgeIn : AssetStore.Edge :=
  { id := none, created_at := 0, updated_at := 0, relation := relR2,
    from_entity := entA, to_entity := entB }

/-- Fixture: an edge submission from "a" to "b" carrying a relation not
stored yet, for insert scenarios (same as edgeIn). -/
def edgeNew : AssetStore.Edge :=
  { id := none, created_at := 0, updated_at := 0, relation := relR2,
    from_entity := entA, to_entity := entB }

/-- Fixture Relation operations: structural equality for `equals`,
"different content is fresher" for `is_fresher_than`, and "take the incoming
record's fields" for `override_with`.  With these, re-submitting relR2 over
the stored relR is a freshness merge. -/
def ropsEq : RelationOps :=
  { requals := fun a b => a == b, rfresher := fun a b => !(a == b),
    roverride := fun _ b => b }

/-- Fixture Relation operations under which every submission is a duplicate
(equals always true) and never fresher. -/
def ropsDup : RelationOps :=
  { requals := fun _ _ => true, rfresher := fun _ _ => false,
    roverride := fun _ b => b }

/-- Fixture Property operations: never fresher. -/
def popsF : PropertyOps :=
  { pfresher := fun _ _ => false, poverride := fun _ b => b }

/-- Fixture Property operations: always fresher, override takes the incoming
record. -/
def popsT : PropertyOps :=
  { pfresher := fun _ _ => true, poverride := fun _ b => b }

/-- Fixture validator accepting every triple. -/
def vrTrue : RelValidator := fun _ _ _ _ => true

/-- Fixture validator rejecting every triple. -/
def vrFalse : RelValidator := fun _ _ _ _ => false

/-- Fixture: asset_db entity "a". -/
def dbEntA : AssetDb.Entity := { id := "a", asset := assetA }

/-- Fixture: asset_db entity "b". -/
def dbEntB : AssetDb.Entity := { id := "b", asset := assetB }

/-- Fixture: a stored asset_db relationship (element id "el1") from "a" to
"b" carrying relR. -/
def dbSedge1 : AssetDb.SEdge :=
  { elementId := "el1", rtype := "DNS_RECORD", fromId := "a", toId := "b",
    created_at := 1, updated_at := 1, relation := relR }

/-- Fixture: a stored asset_db tag node "t1" on entity "a" carrying the
SimpleProperty propQ. -/
def dbStag1 : AssetStore.STag :=
  { tag_id := "t1", ownerId := "a", created_at := some 1,
    updated_at := some 1, prop := propQ }

/-- Fixture: the asset_db store holding the above records. -/
def dbStore1 : AssetDb.Store :=
  { entityIds := ["a", "b"], edges := [dbSedge1], entityTags := [dbStag1] }

/-- Fixture: the empty asset_db store. -/
def dbStoreEmpty : AssetDb.Store :=
  { entityIds := [], edges := [], entityTags := [] }

/-- Fixture: an asset_db re-submission of the stored edge's content, with an
explicit updated_at of 5. -/
def dbEdgeIn : AssetDb.Edge :=
  { id := none, created_at := none, updated_at := some 5, relation := relR,
    from_entity := dbEntA, to_entity := dbEntB }

/-- Fixture: an asset_db tag submission with the explicit id of the stored
tag "t1" but the SourceProperty variant propP, mismatching the stored
SimpleProperty variant. -/
def dbTagMismatch : AssetDb.EntityTag :=
  { id := some "t1", created_at := some 1, updated_at := some 1,
    entity := AssetDb.stubEntity "", prop := propP }

/-- Fixture: an asset_store tag submission carrying an explicit id. -/
def tagWithId : AssetStore.EntityTag :=
  { id := some "t1", created_at := 1, updated_at := 1, entity := entA,
    prop := propP }

/-- Fixture Relation operations under which every submission is a duplicate
and always fresher, with override taking the incoming record. -/
def ropsT : RelationOps :=
  { requals := fun _ _ => true, rfresher := fun _ _ => true,
    roverride := fun _ b => b }

/-- Fixture: the merged edge returned by the freshness-merge scenario
(stored identity and created_at, incoming relation, updated_at 5). -/
def c2EdgeRes : AssetStore.Edge :=
  { id := some "e1", created_at := 1, updated_at := 5, relation := relR2,
    from_entity := entA, to_entity := entB }

/-- Fixture: the repository after the freshness-merge edge scenario. -/
def c2RepoE : AssetStore.Repo :=
  { store := { store1 with edges :=
      [{ sedge1 with updated_at := 5, relation := relR2 }] },
    buffer := [.EdgeUpdated oldEdge1 c2EdgeRes],
    enforceTaxonomy := true, emitEvents := true }

/-- Fixture: the merged entity tag returned by the freshness-merge
scenario. -/
def c2TagRes : AssetStore.EntityTag :=
  { id := some "t1", created_at := 1, updated_at := 5, entity := entA,
    prop := propP }

/-- Fixture: the repository after the freshness-merge tag scenario. -/
def c2RepoT : AssetStore.Repo :=
  { store := { store1 with entityTags :=
      [{ stag1 with updated_at := some 5 }] },
    buffer := [.EntityTagUpdated oldTagA c2TagRes],
    enforceTaxonomy := true, emitEvents := true }

/-- Fixture: the duplicate edge returned by the asset_db re-submission
scenario, after its updated_at was bumped to the submission's time. -/
def c3DupEdge : AssetDb.Edge :=
  { id := some "el1", created_at := some 1, updated_at := some 5,
    relation := relR, from_entity := AssetDb.stubEntity "a",
    to_entity := AssetDb.stubEntity "b" }

/-- Fixture: the asset_db store after the re-submission scenario: identical
to dbStore1 except that the stored relationship's updated_at is now 5. -/
def c3DbStoreAfter : AssetDb.Store :=
  { dbStore1 with edges := [{ dbSedge1 with updated_at := 5 }] }

/-- Fixture: the tag returned by the asset_db explicit-id mismatch scenario
(the stored SimpleProperty tag was silently overwritten with the
SourceProperty payload). -/
def c6Result : AssetDb.EntityTag :=
  { id := some "t1", created_at := some 1, updated_at := some 5,
    entity := AssetDb.stubEntity "a", prop := propP }

/-- Fixture: the asset_db store after the explicit-id mismatch scenario:
the stored tag node now carries the SourceProperty payload. -/
def c6StoreAfter : AssetDb.Store :=
  { dbStore1 with entityTags :=
      [{ tag_id := "t1", ownerId := "a", created_at := some 1,
         updated_at := some 5, prop := propP }] }

/-- Fixture: the inserted edge of the insert scenario (new id "x1",
timestamps 5). -/
def c8NewEdge : AssetStore.Edge :=
  { id := some "x1", created_at := 5, updated_at := 5, relation := relR2,
    from_entity := entA, to_entity := entB }

/-- Fixture: the stored relationship created by the insert scenario. -/
def c8NewSEdge : AssetStore.SEdge :=
  { edge_id := "x1", rtype := "DNS_RECORD", fromId := "a", toId := "b",
    created_at := 5, updated_at := 5, relation := relR2 }

/-- Fixture: the repository after the insert scenario with events on. -/
def c8RepoAfter : AssetStore.Repo :=
  { store := { store1 with edges := [sedge1, c8NewSEdge] },
    buffer := [.EdgeInserted c8NewEdge],
    enforceTaxonomy := true, emitEvents := true }

/-- Fixture: a repository over store1 with taxonomy enforcement disabled
and events on. -/
def repoNoEnf : AssetStore.Repo :=
  { store := store1, buffer := [], enforceTaxonomy := false,
    emitEvents := true }

/-- Fixture: the repository after the insert scenario on repo0 (events
off). -/
def c10RepoAfter : AssetStore.Repo :=
  { store := { store1 with edges := [sedge1, c8NewSEdge] }, buffer := [],
    enforceTaxonomy := true, emitEvents := false }

/-- Helper: every successful create_edge leaves the repository in the shape
"emitEv of the input repository with some store and some single event" — in
particular the flags are unchanged and the buffer is either unchanged or
extended by exactly one event. -/
theorem create_edge_ok_shape {vr : RelValidator} {rops : RelationOps}
    {repo : AssetStore.Repo} {edge : AssetStore.Edge} {now : Nat}
    {nid : String} {res : AssetStore.Edge} {repo2 : AssetStore.Repo}
    (h : AssetStore.create_edge vr rops repo edge now nid = .ok (res, repo2)) :
    ∃ ev st2, repo2 = AssetStore.emitEv { repo with store := st2 } ev := by
  unfold AssetStore.create_edge at h
  split at h
  · exact absurd h (by simp)
  · split at h
    · exact absurd h (by simp)
    · simp only [] at h
      split at h
      · exact absurd h (by simp)
      · simp only [Except.ok.injEq, Prod.mk.injEq] at h
        exact ⟨_, _, h.2.symm⟩
    · split at h
      · simp only [] at h
        split at h
        · exact absurd h (by simp)
        · simp only [Except.ok.injEq, Prod.mk.injEq] at h
          exact ⟨_, _, h.2.symm⟩
      · simp only [Except.ok.injEq, Prod.mk.injEq] at h
        exact ⟨_, repo.store, h.2.symm⟩

/-- Helper: every successful create_entity_tag leaves the repository in the
shape "emitEv of the input repository with some store and some single
event". -/
theorem create_entity_tag_ok_shape {pops : PropertyOps}
    {repo : AssetStore.Repo} {tag : AssetStore.EntityTag} {now : Nat}
    {nid : String} {res : AssetStore.EntityTag} {repo2 : AssetStore.Repo}
    (h : AssetStore.create_entity_tag pops repo tag now nid
      = .ok (res, repo2)) :
    ∃ ev st2, repo2 = AssetStore.emitEv { repo with store := st2 } ev := by
  unfold AssetStore.create_entity_tag at h
  split at h
  · exact absurd h (by simp)
  · simp only [Except.ok.injEq, Prod.mk.injEq] at h
    exact ⟨_, _, h.2.symm⟩
  · split at h
    · simp only [Except.ok.injEq, Prod.mk.injEq] at h
      exact ⟨_, _, h.2.symm⟩
    · simp only [Except.ok.injEq, Prod.mk.injEq] at h
      exact ⟨_, repo.store, h.2.symm⟩

/-- Helper: every successful create_edge_tag leaves the repository in the
shape "emitEv of the input repository with some store and some single
event". -/
theorem create_edge_tag_ok_shape {pops : PropertyOps}
    {repo : AssetStore.Repo} {tag : AssetStore.EdgeTag} {now : Nat}
    {nid : String} {res : AssetStore.EdgeTag} {repo2 : AssetStore.Repo}
    (h : AssetStore.create_edge_tag pops repo tag now nid = .ok (res, repo2)) :
    ∃ ev st2, repo2 = AssetStore.emitEv { repo with store := st2 } ev := by
  unfold AssetStore.create_edge_tag at h
  split at h
  · exact absurd h (by simp)
  · simp only [Except.ok.injEq, Prod.mk.injEq] at h
    exact ⟨_, _, h.2.symm⟩
  · split at h
    · simp only [] at h
      split at h
      · exact absurd h (by simp)
      · simp only [Except.ok.injEq, Prod.mk.injEq] at h
        exact ⟨_, _, h.2.symm⟩
    · simp only [Except.ok.injEq, Prod.mk.injEq] at h
      exact ⟨_, repo.store, h.2.symm⟩

/-- C1 counterexample: the stored content-equal tag is owned by entity "a",
yet an id-less submission of the same property for entity "b" resolves to
that tag: create_entity_tag returns the tag owned by "a" (an
EntityTagUntouched outcome on the other owner's tag) and inserts nothing
for "b" — a content-equal tag owned by a different owner does cause a
merge, and the claimed owner filter does not exist in the asset_store
variant. -/
theorem entityTag_dedup_merges_across_owners_cex :
    AssetStore.create_entity_tag popsF repo1 tagB 5 "t2"
      = .ok (oldTagA,
          { repo1 with buffer := [.EntityTagUntouched oldTagA] })
    ∧ ¬ oldTagA.entity.id = tagB.entity.id := by
  exact ⟨by decide, by decide⟩

/-- C1 (amended): in the asset_store variant, duplicate detection for an
id-less tag upsert takes the head of the list of content-equal tags found
anywhere in storage, with no filtering on the owning entity or edge — for
entity tags and edge tags alike. -/
theorem tag_dedup_takes_first_content_match_anywhere
    (repo : AssetStore.Repo) (tag : AssetStore.EntityTag)
    (etag : AssetStore.EdgeTag)
    (l1 : List AssetStore.EntityTag) (l2 : List AssetStore.EdgeTag)
    (h1 : idPresent tag.id = false) (h2 : idPresent etag.id = false)
    (hf1 : AssetStore.find_entity_tags_by_content repo.store tag.prop none
      = .ok l1)
    (hf2 : AssetStore.find_edge_tags_by_content repo.store etag.prop none
      = .ok l2) :
    AssetStore.findExistingEntityTag repo tag = .ok l1.head?
      ∧ AssetStore.findExistingEdgeTag repo etag = .ok l2.head? := by
  constructor
  · unfold AssetStore.findExistingEntityTag
    rw [h1, hf1]
    simp
  · unfold AssetStore.findExistingEdgeTag
    rw [h2, hf2]
    simp

/-- C1 witness: the amended statement applied to the concrete fixture store,
where the single content-equal entity tag is owned by "a" and the single
content-equal edge tag by edge "e1"; the id-less submissions resolve to
these heads regardless of their own owners. -/
theorem tag_dedup_takes_first_content_match_anywhere_witness :
    AssetStore.findExistingEntityTag repo1 tagB = .ok (some oldTagA)
      ∧ AssetStore.findExistingEdgeTag repo1 etagIn
        = .ok (some oldEdgeTag1) :=
  tag_dedup_takes_first_content_match_anywhere repo1 tagB etagIn
    [oldTagA] [oldEdgeTag1] (by decide) (by decide) (by decide) (by decide)

/-- C2: when the existence lookup resolves a stored edge (resp. entity tag)
and the incoming relation (resp. property) is_fresher_than the stored one,
a successful upsert returns a record with the stored record's id and
created_at, the payload override_with of the stored record by the incoming
one, updated_at set to the current time (a strict increase over the stored
updated_at under a monotone clock), and appends exactly one Updated event
carrying both the old and the new record. -/
theorem freshness_merge_preserves_identity
    (vr : RelValidator) (rops : RelationOps) (pops : PropertyOps)
    (repo : AssetStore.Repo) (edge : AssetStore.Edge)
    (tag : AssetStore.EntityTag) (now : Nat) (newId : String)
    (oldE : AssetStore.Edge) (oldT : AssetStore.EntityTag)
    (hEmit : repo.emitEvents = true)
    (hFindE : AssetStore.findExistingEdge rops repo edge = .ok (some oldE))
    (hFreshE : rops.rfresher edge.relation oldE.relation = true)
    (hLtE : oldE.updated_at < now)
    (hFindT : AssetStore.findExistingEntityTag repo tag = .ok (some oldT))
    (hFreshT : pops.pfresher tag.prop oldT.prop = true)
    (hLtT : oldT.updated_at < now) :
    (∀ res repo2,
      AssetStore.create_edge vr rops repo edge now newId = .ok (res, repo2) →
        res.id = oldE.id ∧ res.created_at = oldE.created_at
          ∧ res.relation = rops.roverride oldE.relation edge.relation
          ∧ res.updated_at = now ∧ oldE.updated_at < res.updated_at
          ∧ repo2.buffer = repo.buffer ++ [.EdgeUpdated oldE res])
    ∧ (∀ res repo2,
      AssetStore.create_entity_tag pops repo tag now newId
          = .ok (res, repo2) →
        res.id = oldT.id ∧ res.created_at = oldT.created_at
          ∧ res.prop = pops.poverride oldT.prop tag.prop
          ∧ res.updated_at = now ∧ oldT.updated_at < res.updated_at
          ∧ repo2.buffer = repo.buffer ++ [.EntityTagUpdated oldT res]) := by
  constructor
  · intro res repo2 h
    unfold AssetStore.create_edge at h
    split at h
    · exact absurd h (by simp)
    · split at h
      · exact absurd h (by simp)
      · next heq =>
        rw [hFindE] at heq
        exact absurd heq (by simp)
      · next old heq =>
        rw [hFindE] at heq
        have hold : oldE = old := by
          simpa using heq
        subst hold
        split at h
        · simp only [] at h
          split at h
          · exact absurd h (by simp)
          · simp only [Except.ok.injEq, Prod.mk.injEq] at h
            obtain ⟨h1, h2⟩ := h
            subst h1
            subst h2
            refine ⟨rfl, rfl, rfl, rfl, hLtE, ?_⟩
            simp [AssetStore.emitEv, hEmit]
        · next hnf => exact absurd hFreshE hnf
  · intro res repo2 h
    unfold AssetStore.create_entity_tag at h
    split at h
    · exact absurd h (by simp)
    · next heq =>
      rw [hFindT] at heq
      exact absurd heq (by simp)
    · next old heq =>
      rw [hFindT] at heq
      have hold : oldT = old := by
        simpa using heq
      subst hold
      split at h
      · simp only [Except.ok.injEq, Prod.mk.injEq] at h
        obtain ⟨h1, h2⟩ := h
        subst h1
        subst h2
        refine ⟨rfl, rfl, rfl, rfl, hLtT, ?_⟩
        simp [AssetStore.emitEv, hEmit]
      · next hnf => exact absurd hFreshT hnf

/-- C2 witness: the freshness-merge theorem applied to the concrete fixture
store (stored dns_record edge with rrtype 1 and stored SourceProperty tag),
re-submitted with always-fresher external operations at time 5. -/
theorem freshness_merge_preserves_identity_witness :
    (c2EdgeRes.id = oldEdge1.id ∧ c2EdgeRes.created_at = oldEdge1.created_at
      ∧ c2EdgeRes.relation = ropsT.roverride oldEdge1.relation edgeIn.relation
      ∧ c2EdgeRes.updated_at = 5 ∧ oldEdge1.updated_at < c2EdgeRes.updated_at
      ∧ c2RepoE.buffer = repo1.buffer ++ [.EdgeUpdated oldEdge1 c2EdgeRes])
    ∧ (c2TagRes.id = oldTagA.id ∧ c2TagRes.created_at = oldTagA.created_at
      ∧ c2TagRes.prop = popsT.poverride oldTagA.prop tagA.prop
      ∧ c2TagRes.updated_at = 5 ∧ oldTagA.updated_at < c2TagRes.updated_at
      ∧ c2RepoT.buffer = repo1.buffer ++ [.EntityTagUpdated oldTagA c2TagRes]) :=
  ⟨(freshness_merge_preserves_identity vrTrue ropsT popsT repo1 edgeIn tagA
      5 "x1" oldEdge1 oldTagA rfl (by decide) (by decide) (by decide)
      (by decide) (by decide) (by decide)).1 c2EdgeRes c2RepoE (by decide),
   (freshness_merge_preserves_identity vrTrue ropsT popsT repo1 edgeIn tagA
      5 "x2" oldEdge1 oldTagA rfl (by decide) (by decide) (by decide)
      (by decide) (by decide) (by decide)).2 c2TagRes c2RepoT (by decide)⟩

/-- C3 counterexample: in the asset_db variant, re-submitting an edge whose
relation is identical to the stored one (hence in particular not fresher)
does perform a write: the duplicate path bumps the stored relationship's
updated_at (1 before, 5 after) via edge_seen, returns the refetched record
with the new updated_at rather than the stored record unchanged, and emits
no event at all (the asset_db variant has no event log). -/
theorem edge_resubmission_writes_updated_at_cex :
    AssetDb.create_edge vrTrue dbStore1 dbEdgeIn 9 "elX"
        = .ok (c3DupEdge, c3DbStoreAfter)
    ∧ dbStore1.edges.map (fun r => r.updated_at) = [1]
    ∧ c3DbStoreAfter.edges.map (fun r => r.updated_at) = [5]
    ∧ c3DupEdge.updated_at = some 5 :=
  ⟨by decide, by decide, by decide, by decide⟩

/-- C3 (amended): in the asset_store variant, when the existence lookup
resolves a stored edge (resp. entity tag) and the incoming payload is not
fresher, the upsert returns the stored record unchanged, performs no write
to the store, and appends exactly one Untouched event; the asset_db variant
instead bumps the stored edge's updated_at on its duplicate path and emits
nothing (see the counterexample). -/
theorem not_fresher_noop
    (vr : RelValidator) (rops : RelationOps) (pops : PropertyOps)
    (repo : AssetStore.Repo) (edge : AssetStore.Edge)
    (tag : AssetStore.EntityTag) (now : Nat) (newId : String)
    (oldE : AssetStore.Edge) (oldT : AssetStore.EntityTag)
    (hEmit : repo.emitEvents = true)
    (hTax : (repo.enforceTaxonomy
      && !(vr edge.from_entity.asset.asset_type edge.relation.label
            edge.relation.relation_type edge.to_entity.asset.asset_type))
        = false)
    (hFindE : AssetStore.findExistingEdge rops repo edge = .ok (some oldE))
    (hNFreshE : rops.rfresher edge.relation oldE.relation = false)
    (hFindT : AssetStore.findExistingEntityTag repo tag = .ok (some oldT))
    (hNFreshT : pops.pfresher tag.prop oldT.prop = false) :
    AssetStore.create_edge vr rops repo edge now newId
        = .ok (oldE,
            { repo with buffer := repo.buffer ++ [.EdgeUntouched oldE] })
    ∧ AssetStore.create_entity_tag pops repo tag now newId
        = .ok (oldT,
            { repo with buffer := repo.buffer ++ [.EntityTagUntouched oldT] }) := by
  constructor
  · unfold AssetStore.create_edge
    rw [hTax]
    simp only [Bool.false_eq_true, if_false]
    rw [hFindE]
    simp only [hNFreshE, Bool.false_eq_true, if_false]
    simp [AssetStore.emitEv, hEmit]
  · unfold AssetStore.create_entity_tag
    rw [hFindT]
    simp only [hNFreshT, Bool.false_eq_true, if_false]
    simp [AssetStore.emitEv, hEmit]

/-- C3 witness: the amended no-op statement applied to the fixture store
with Relation operations under which the re-submission is a duplicate and
not fresher, and Property operations that are never fresher. -/
theorem not_fresher_noop_witness :
    AssetStore.create_edge vrTrue ropsDup repo1 edgeIn 5 "x1"
        = .ok (oldEdge1,
            { repo1 with buffer := repo1.buffer ++ [.EdgeUntouched oldEdge1] })
    ∧ AssetStore.create_entity_tag popsF repo1 tagA 5 "x1"
        = .ok (oldTagA,
            { repo1 with buffer := repo1.buffer
                ++ [.EntityTagUntouched oldTagA] }) :=
  not_fresher_noop vrTrue ropsDup popsF repo1 edgeIn tagA 5 "x1"
    oldEdge1 oldTagA rfl (by decide) (by decide) (by decide) (by decide)
    (by decide)

/-- C4: evaluation of a validator-rejected edge creation at the failing
input.  The asset_store path fails with the taxonomy-violation error and
writes nothing (an error leaves the store as it was).  The asset_db path
also rejects before any query, but its raise statement evaluates
`Exception(template).format(...)`, so what reaches the caller is an
AttributeError rather than the intended taxonomy-violation message — the
code contradicts its own error template. -/
theorem taxonomy_rejection_eval :
    AssetStore.create_edge vrFalse ropsEq repo1 edgeIn 5 "x1"
        = .error (.taxonomyViolation "FQDN" "dns_record" "IPAddress")
    ∧ AssetDb.create_edge vrFalse dbStore1 dbEdgeIn 9 "elX"
        = .error .attributeErrorExceptionFormat :=
  ⟨by decide, by decide⟩

/-- C5 counterexample: the content-based find of the asset_db variant (a
cited source of the claim) raises "no entity tags found" on zero matches
instead of returning the empty collection; and the id-based tag finds of
the asset_store variant fail with an AttributeError — even when the tag is
present in the store — rather than with the not-found error, because they
read `.get` off the driver's eager result tuple. -/
theorem find_zero_records_contract_cex :
    AssetDb.find_entity_tags_by_content dbStoreEmpty propP none
        = .error .noEntityTagsFound
    ∧ AssetStore.find_entity_tag_by_id store1 "t1"
        = .error .attributeErrorEagerResultGet := by
  exact ⟨by decide, by decide⟩

/-- C5 (amended): in the asset_store variant, the content-based tag finds
return the empty collection (never an error) when no stored tag matches,
and find_edge_by_id fails with "no edge was found" (never an empty result)
when the id is absent; the asset_db content-based finds and the tag-by-id
finds do not obey the claimed contract (see the counterexample). -/
theorem find_zero_records_contract
    (st : AssetStore.Store) (prop : Property) (since : Option Nat)
    (id : String)
    (hT : st.entityTags.filter
      (fun t => t.prop == prop && sinceOk since t.updated_at) = [])
    (hG : st.edgeTags.filter
      (fun t => t.prop == prop && sinceOk since t.updated_at) = [])
    (hE : st.edges.find? (fun r => r.edge_id == id) = none) :
    AssetStore.find_entity_tags_by_content st prop since = .ok []
    ∧ AssetStore.find_edge_tags_by_content st prop since = .ok []
    ∧ AssetStore.find_edge_by_id st id = .error .noEdgeWasFound := by
  refine ⟨?_, ?_, ?_⟩
  · unfold AssetStore.find_entity_tags_by_content
    rw [hT]
    rfl
  · unfold AssetStore.find_edge_tags_by_content
    rw [hG]
    rfl
  · unfold AssetStore.find_edge_by_id
    rw [hE]

/-- C5 witness: the amended contract applied to the fixture store, with a
property not stored anywhere (propQ) and an absent edge id. -/
theorem find_zero_records_contract_witness :
    AssetStore.find_entity_tags_by_content store1 propQ none = .ok []
    ∧ AssetStore.find_edge_tags_by_content store1 propQ none = .ok []
    ∧ AssetStore.find_edge_by_id store1 "missing"
        = .error .noEdgeWasFound :=
  find_zero_records_contract store1 propQ none "missing" (by decide)
    (by decide) (by decide)

/-- C6: evaluation at the failing input.  The stored asset_db tag "t1"
carries a SimpleProperty, the submission carries the same explicit id but a
SourceProperty; create_entity_tag raises no TypeMismatch — the comparison
in the source checks the incoming property type against itself, because the
"existing" record is built from the submission — and silently rewrites the
stored node to the new property variant.  The asset_store sibling has no
property-type check at all: its explicit-id path fails with the
AttributeError of find_entity_tag_by_id, never with a TypeMismatch. -/
theorem explicit_id_type_change_not_rejected :
    AssetDb.create_entity_tag dbStore1 dbEntA dbTagMismatch 5 "n1"
        = .ok (c6Result, c6StoreAfter)
    ∧ dbStag1.prop.property_type = "SimpleProperty"
    ∧ dbTagMismatch.prop.property_type = "SourceProperty"
    ∧ c6Result.prop.property_type = "SourceProperty"
    ∧ AssetStore.create_entity_tag popsF repo1 tagWithId 5 "n1"
        = .error .attributeErrorEagerResultGet :=
  ⟨by decide, by decide, by decide, by decide, by decide⟩

/-- C7: evaluation at the failing input, a store containing edge "e1" with
its endpoints, tag nodes "t1" and "g1", and event emission enabled.  The
asset_store delete_edge fails on every call: its delete query is a plain
string whose literal doubled-brace text is not valid Cypher, so the driver
raises after the lookup and neither the deletion nor the EdgeDeleted event
is reached.  delete_entity_tag and delete_edge_tag fail earlier still, in
the by-id lookup's AttributeError.  The asset_db delete_edge does delete,
but returns nothing (its return type carries no record) and emits nothing.
All of this contradicts the claim and the repository's own tests. -/
theorem delete_operations_eval :
    AssetStore.delete_edge repo1 "e1" = .error .cypherSyntaxError
    ∧ AssetStore.delete_entity_tag repo1 "t1"
        = .error .attributeErrorEagerResultGet
    ∧ AssetStore.delete_edge_tag repo1 "g1"
        = .error .attributeErrorEagerResultGet
    ∧ (AssetDb.delete_edge dbStore1 "el1").edges = [] :=
  ⟨by decide, by decide, by decide, by decide⟩

/-- Helper: emitEv never touches the store or the flags. -/
theorem emitEv_store (repo : AssetStore.Repo) (ev : AssetStore.Event) :
    (AssetStore.emitEv repo ev).store = repo.store := by
  unfold AssetStore.emitEv
  split <;> rfl

/-- Helper: with emission enabled, emitEv appends exactly the given event. -/
theorem emitEv_buffer_true (repo : AssetStore.Repo) (ev : AssetStore.Event)
    (h : repo.emitEvents = true) :
    (AssetStore.emitEv repo ev).buffer = repo.buffer ++ [ev] := by
  unfold AssetStore.emitEv
  rw [h]
  rfl

/-- Helper: with emission disabled, emitEv leaves the buffer unchanged. -/
theorem emitEv_buffer_false (repo : AssetStore.Repo) (ev : AssetStore.Event)
    (h : repo.emitEvents = false) :
    (AssetStore.emitEv repo ev).buffer = repo.buffer := by
  unfold AssetStore.emitEv
  rw [h]
  rfl

/-- C8 counterexample: a delete is a mutation attempt, yet with event
emission enabled it appends no event: delete_edge on the stored edge fails
in its malformed delete query before reaching the emission, so the attempt
contributes zero events to the log rather than exactly one (an error result
leaves the repository, its buffer included, exactly as before the call). -/
theorem delete_attempt_appends_no_event_cex :
    repo1.emitEvents = true
    ∧ AssetStore.delete_edge repo1 "e1" = .error .cypherSyntaxError :=
  ⟨rfl, by decide⟩

/-- C8 (amended): with event emission enabled, every mutation that
completes appends exactly one event to the process-local log (create upserts
in all their outcomes: insert, update, no-op; asset_store delete attempts
fail before emitting, see the counterexample), and flush_events returns the
accumulated events in order and clears the log, so a second flush_events
with no intervening mutation returns the empty list. -/
theorem event_log_appends_one_per_completed_mutation
    (vr : RelValidator) (rops : RelationOps) (pops : PropertyOps)
    (repo : AssetStore.Repo) (hEmit : repo.emitEvents = true) :
    (∀ edge now nid res repo2,
      AssetStore.create_edge vr rops repo edge now nid = .ok (res, repo2) →
        ∃ ev, repo2.buffer = repo.buffer ++ [ev])
    ∧ (∀ tag now nid res repo2,
      AssetStore.create_entity_tag pops repo tag now nid = .ok (res, repo2) →
        ∃ ev, repo2.buffer = repo.buffer ++ [ev])
    ∧ (∀ tag now nid res repo2,
      AssetStore.create_edge_tag pops repo tag now nid = .ok (res, repo2) →
        ∃ ev, repo2.buffer = repo.buffer ++ [ev])
    ∧ AssetStore.flush_events repo = (repo.buffer, { repo with buffer := [] })
    ∧ (AssetStore.flush_events (AssetStore.flush_events repo).2).1 = [] := by
  refine ⟨?_, ?_, ?_, rfl, rfl⟩
  · intro edge now nid res repo2 h
    obtain ⟨ev, st2, rfl⟩ := create_edge_ok_shape h
    exact ⟨ev, emitEv_buffer_true _ ev hEmit⟩
  · intro tag now nid res repo2 h
    obtain ⟨ev, st2, rfl⟩ := create_entity_tag_ok_shape h
    exact ⟨ev, emitEv_buffer_true _ ev hEmit⟩
  · intro tag now nid res repo2 h
    obtain ⟨ev, st2, rfl⟩ := create_edge_tag_ok_shape h
    exact ⟨ev, emitEv_buffer_true _ ev hEmit⟩

/-- C8 witness: the amended statement applied to the fixture repository
with events on: the concrete insert appends exactly one event, and flushing
drains and clears the log. -/
theorem event_log_appends_one_per_completed_mutation_witness :
    (∃ ev, c8RepoAfter.buffer = repo1.buffer ++ [ev])
    ∧ AssetStore.flush_events repo1
        = (repo1.buffer, { repo1 with buffer := [] })
    ∧ (AssetStore.flush_events (AssetStore.flush_events repo1).2).1 = [] :=
  ⟨(event_log_appends_one_per_completed_mutation vrTrue ropsEq popsF repo1
      rfl).1 edgeIn 5 "x1" c8NewEdge c8RepoAfter (by decide),
   (event_log_appends_one_per_completed_mutation vrTrue ropsEq popsF repo1
      rfl).2.2.2.1,
   (event_log_appends_one_per_completed_mutation vrTrue ropsEq popsF repo1
      rfl).2.2.2.2⟩

/-- C9: NeoRepository's enforce_taxonomy constructor flag defaults to True,
and when it is False create_edge performs no taxonomy validation: for every
validator — including one rejecting the triple — a submission whose
existence lookup finds no duplicate and whose endpoints are stored is
accepted and written as a new relationship. -/
theorem taxonomy_gate_disabled_accepts_everything
    (vr : RelValidator) (rops : RelationOps) (repo : AssetStore.Repo)
    (edge : AssetStore.Edge) (now : Nat) (nid : String)
    (hEnf : repo.enforceTaxonomy = false)
    (hFind : AssetStore.findExistingEdge rops repo edge = .ok none)
    (hFrom : repo.store.entities.any
      (fun e => e.id == edge.from_entity.id) = true)
    (hTo : repo.store.entities.any
      (fun e => e.id == edge.to_entity.id) = true) :
    AssetStore.defaultEnforceTaxonomy = true
    ∧ ∃ repo2,
      AssetStore.create_edge vr rops repo edge now nid
        = .ok ({ id := some nid, created_at := now, updated_at := now,
                 relation := edge.relation, from_entity := edge.from_entity,
                 to_entity := edge.to_entity }, repo2)
      ∧ repo2.store.edges = repo.store.edges ++
          [{ edge_id := nid, rtype := strUpper edge.relation.label,
             fromId := edge.from_entity.id, toId := edge.to_entity.id,
             created_at := now, updated_at := now,
             relation := edge.relation }] := by
  refine ⟨rfl, ?_⟩
  unfold AssetStore.create_edge
  rw [hEnf]
  simp only [Bool.false_and, Bool.false_eq_true, if_false]
  rw [hFind]
  unfold AssetStore.insertEdgeStore
  rw [hFrom, hTo]
  simp only [Bool.and_self, if_true]
  exact ⟨_, rfl, by rw [emitEv_store]; rfl⟩

/-- C9 witness: the flag-off acceptance applied to the fixture store with
the always-rejecting validator. -/
theorem taxonomy_gate_disabled_accepts_everything_witness :
    AssetStore.defaultEnforceTaxonomy = true
    ∧ ∃ repo2,
      AssetStore.create_edge vrFalse ropsEq repoNoEnf edgeIn 5 "x1"
        = .ok ({ id := some "x1", created_at := 5, updated_at := 5,
                 relation := edgeIn.relation,
                 from_entity := edgeIn.from_entity,
                 to_entity := edgeIn.to_entity }, repo2)
      ∧ repo2.store.edges = repoNoEnf.store.edges ++
          [{ edge_id := "x1", rtype := strUpper edgeIn.relation.label,
             fromId := edgeIn.from_entity.id, toId := edgeIn.to_entity.id,
             created_at := 5, updated_at := 5,
             relation := edgeIn.relation }] :=
  taxonomy_gate_disabled_accepts_everything vrFalse ropsEq repoNoEnf edgeIn
    5 "x1" rfl (by decide) (by decide) (by decide)

/-- C10: NeoRepository's emit_events constructor flag defaults to False, a
fresh repository starts with an empty buffer, and while the flag is False
every operation leaves the buffer unchanged — so flush_events always
returns the empty list. -/
theorem events_disabled_by_default
    (vr : RelValidator) (rops : RelationOps) (pops : PropertyOps)
    (st0 : AssetStore.Store) (repo : AssetStore.Repo)
    (hEmit : repo.emitEvents = false) :
    AssetStore.defaultEmitEvents = false
    ∧ (AssetStore.initRepo st0 AssetStore.defaultEnforceTaxonomy
        AssetStore.defaultEmitEvents).emitEvents = false
    ∧ (AssetStore.initRepo st0 AssetStore.defaultEnforceTaxonomy
        AssetStore.defaultEmitEvents).buffer = []
    ∧ (∀ edge now nid res repo2,
      AssetStore.create_edge vr rops repo edge now nid = .ok (res, repo2) →
        repo2.buffer = repo.buffer)
    ∧ (∀ tag now nid res repo2,
      AssetStore.create_entity_tag pops repo tag now nid = .ok (res, repo2) →
        repo2.buffer = repo.buffer)
    ∧ (∀ tag now nid res repo2,
      AssetStore.create_edge_tag pops repo tag now nid = .ok (res, repo2) →
        repo2.buffer = repo.buffer)
    ∧ (repo.buffer = [] → (AssetStore.flush_events repo).1 = []) := by
  refine ⟨rfl, rfl, rfl, ?_, ?_, ?_, fun h => h⟩
  · intro edge now nid res repo2 h
    obtain ⟨ev, st2, rfl⟩ := create_edge_ok_shape h
    exact emitEv_buffer_false _ ev hEmit
  · intro tag now nid res repo2 h
    obtain ⟨ev, st2, rfl⟩ := create_entity_tag_ok_shape h
    exact emitEv_buffer_false _ ev hEmit
  · intro tag now nid res repo2 h
    obtain ⟨ev, st2, rfl⟩ := create_edge_tag_ok_shape h
    exact emitEv_buffer_false _ ev hEmit

/-- C10 witness: with the default flags, the concrete insert leaves the
buffer empty and flush_events returns the empty list. -/
theorem events_disabled_by_default_witness :
    AssetStore.defaultEmitEvents = false
    ∧ c10RepoAfter.buffer = repo0.buffer
    ∧ (AssetStore.flush_events repo0).1 = [] :=
  ⟨rfl,
   (events_disabled_by_default vrTrue ropsEq popsF store1 repo0
      rfl).2.2.2.1 edgeIn 5 "x1" c8NewEdge c10RepoAfter (by decide),
   (events_disabled_by_default vrTrue ropsEq popsF store1 repo0
      rfl).2.2.2.2.2.2 rfl⟩
